import Mathlib

/-!
Shallow embedding of the profit-generation hook (`useProfitGeneration.tsx`)
and the verification-widget wrapper (`RecaptchaWrapper`) of the
tradepilot-quantum-flow repository, together with theorems settling the
spec claims about them.

Modelling conventions:
* Timestamps are minutes since an epoch (`Nat`); one calendar day is
  `minutesPerDay = 1440` minutes, so adding `n` days at day granularity is
  adding `n * 1440` minutes.
* Monetary values are exact rationals (`ℚ`); the JavaScript numbers of the
  source are IEEE doubles, but every claim under test uses values on which
  double arithmetic is exact.
* The remote backend (supabase) is an explicit `DB` value; each remote
  call's success or failure is an explicit boolean in an environment
  record, since the client cannot observe more than "error or not".
* `console.error` / `console.log` calls and toasts are returned as
  explicit fields of result records.
-/

/-- Local wall-clock instant as observed by `new Date()`:
`day` abstracts `toDateString()` (the calendar-day identity),
`hours`/`minutes` are `getHours()`/`getMinutes()`. -/
structure LocalTime where
  day : Nat
  hours : Nat
  minutes : Nat
deriving DecidableEq, Repr

/-- The [00:00, 00:05) wall-clock window tested at line 85 of
`useProfitGeneration.tsx`: `hours === 0 && minutes < 5`. -/
def inWindow (t : LocalTime) : Bool :=
  t.hours == 0 && t.minutes < 5

/-- One call of `shouldGenerateProfit` (lines 71-91).  The state is the
`lastProfitCheckRef` cell (the day marker, `none` before any trigger).
Returns the boolean result and the updated marker. -/
def shouldGenerateProfit (marker : Option Nat) (now : LocalTime) :
    Bool × Option Nat :=
  if marker = some now.day then
    (false, marker)
  else if inWindow now then
    (true, some now.day)
  else
    (false, marker)

/-- Runs `shouldGenerateProfit` over a sequence of call instants, threading
the `lastProfitCheckRef` state, and collects the returned booleans. -/
def runGate (marker : Option Nat) : List LocalTime → List Bool
  | [] => []
  | t :: ts =>
    let r := shouldGenerateProfit marker t
    r.1 :: runGate r.2 ts

/-- The behaviour the spec ascribes to the gate within one day: the first
in-window call yields `true`, every other call yields `false`. -/
def firstTrigger : List LocalTime → List Bool
  | [] => []
  | t :: ts =>
    if inWindow t then true :: ts.map (fun _ => false)
    else false :: firstTrigger ts

/-- Investment plan row (`investment_plans`). -/
structure Plan where
  id : Nat
  name : String
  duration_days : Nat
  daily_profit_percentage : ℚ
deriving DecidableEq, Repr

/-- User investment row (`user_investments`). -/
structure Investment where
  id : Nat
  user_id : Nat
  plan_id : Nat
  amount : ℚ
  start_date : Nat
  end_date : Nat
  is_active : Bool
  profit_earned : ℚ
deriving DecidableEq, Repr

/-- A row written by the `send_user_notification` remote procedure.  The
source formats the message as a string; the fields it interpolates (the
credited amount and the plan name) are kept structured here. -/
structure UserNotification where
  user_id : Nat
  title : String
  amount : ℚ
  plan_name : String
  ntype : String
deriving DecidableEq, Repr

/-- The backend state visible to this client. -/
structure DB where
  plans : List Plan
  investments : List Investment
  balance : Nat → ℚ
  notifications : List UserNotification

/-- `.from('investment_plans').select('*').eq('id', planId).single()`. -/
def findPlan (db : DB) (planId : Nat) : Option Plan :=
  db.plans.find? (fun p => p.id == planId)

/-- `.from('user_investments').select(...).eq('id', investmentId).single()`. -/
def findInv (db : DB) (invId : Nat) : Option Investment :=
  db.investments.find? (fun i => i.id == invId)

/-- `.from('user_investments').update(...).eq('id', investmentId)`. -/
def updateInv (db : DB) (invId : Nat) (f : Investment → Investment) : DB :=
  { db with investments :=
      db.investments.map (fun i => if i.id == invId then f i else i) }

/-- The `update_user_balance` remote procedure with operation `add`
(a negative `amt` is never passed by this client). -/
def creditBalance (db : DB) (userId : Nat) (amt : ℚ) : DB :=
  { db with balance := fun u => if u == userId then db.balance u + amt else db.balance u }

/-- The `update_user_balance` remote procedure with operation `remove`. -/
def debitBalance (db : DB) (userId : Nat) (amt : ℚ) : DB :=
  { db with balance := fun u => if u == userId then db.balance u - amt else db.balance u }

/-- One calendar day in minutes; `endDate.setDate(endDate.getDate() + n)`
adds `n * minutesPerDay` to the timestamp. -/
def minutesPerDay : Nat := 1440

/-- Success/failure outcome of each remote call made by
`generateDailyProfit`, as observed by the client.  A failed call leaves the
backend row unchanged. -/
structure ProfitEnv where
  fetchErr : Bool
  deactivateErr : Bool
  profitUpdateErr : Bool
  balanceErr : Bool
  notifyErr : Bool
deriving DecidableEq, Repr

/-- The all-successful environment. -/
def ProfitEnv.ok : ProfitEnv := ⟨false, false, false, false, false⟩

/-- Result of one `generateDailyProfit` call: the backend state, whether
the catch block logged an error (`console.error`, line 151), and whether
the expiry branch ran (deactivation log + early return, lines 110-119). -/
structure GenResult where
  db : DB
  errorLogged : Bool
  deactivated : Bool

/-- `generateDailyProfit(investmentId, amount, dailyProfitPercentage)`
(lines 93-153).  `nowTs` is the timestamp taken at line 107.  The whole
body is wrapped in try/catch, so the function never throws: a thrown
error is logged and swallowed.  The deactivation update (line 112) and
the notification rpc (line 142) are awaited without inspecting their
error results. -/
def generateDailyProfit (env : ProfitEnv) (db : DB) (investmentId : Nat)
    (amount dailyProfitPercentage : ℚ) (nowTs : Nat) : GenResult :=
  let dailyProfit := amount * dailyProfitPercentage / 100
  match (if env.fetchErr then none else findInv db investmentId) with
  | none => ⟨db, true, false⟩
  | some investment =>
    if investment.end_date < nowTs then
      -- expiry branch: the update's error result is never inspected
      let db1 :=
        if env.deactivateErr then db
        else updateInv db investmentId (fun i => { i with is_active := false })
      ⟨db1, false, true⟩
    else if env.profitUpdateErr then
      ⟨db, true, false⟩
    else
      -- profit_earned := Number(investment.profit_earned) + dailyProfit,
      -- computed from the row fetched above
      let db1 := updateInv db investmentId
        (fun i => { i with profit_earned := investment.profit_earned + dailyProfit })
      if env.balanceErr then ⟨db1, true, false⟩
      else
        let db2 := creditBalance db1 investment.user_id dailyProfit
        -- send_user_notification: awaited, error result never inspected
        let planName := ((findPlan db investment.plan_id).map Plan.name).getD ""
        let db3 :=
          if env.notifyErr then db2
          else { db2 with notifications := db2.notifications ++
            [⟨investment.user_id, "Daily Profit Credited", dailyProfit, planName, "success"⟩] }
        ⟨db3, false, false⟩

/-- The loop of `generateProfitsForActiveInvestments` (lines 174-180):
processes each fetched record in order with `generateDailyProfit`, which
swallows its own errors, so the loop always runs to completion.  Returns
the final backend state and the ids whose processing logged an error. -/
def runCycleLoop (envs : Nat → ProfitEnv) (nowTs : Nat) :
    List Investment → DB → DB × List Nat
  | [], db => (db, [])
  | investment :: rest, db =>
    let pct := ((findPlan db investment.plan_id).map
      Plan.daily_profit_percentage).getD 0
    let r := generateDailyProfit (envs investment.id) db investment.id
      investment.amount pct nowTs
    let tail := runCycleLoop envs nowTs rest r.db
    (tail.1, (if r.errorLogged then [investment.id] else []) ++ tail.2)

/-- Result of one invocation of `generateProfitsForActiveInvestments`. -/
structure CycleRes where
  marker : Option Nat
  db : DB
  batchErrorLogged : Bool
  recordErrors : List Nat

/-- `generateProfitsForActiveInvestments` (lines 157-184): the gate runs
first; on a true gate the batch fetch selects rows with `is_active = true`
and `end_date ≥ now`; each row is then processed in order.  The outer
catch logs and swallows a batch-fetch failure; no toast or user
notification is issued from this function. -/
def generateProfitsForActiveInvestments (batchErr : Bool)
    (envs : Nat → ProfitEnv) (now : LocalTime) (nowTs : Nat)
    (marker : Option Nat) (db : DB) : CycleRes :=
  let gate := shouldGenerateProfit marker now
  if gate.1 = false then ⟨gate.2, db, false, []⟩
  else if batchErr then ⟨gate.2, db, true, []⟩
  else
    let fetched := db.investments.filter
      (fun i => i.is_active && nowTs ≤ i.end_date)
    let r := runCycleLoop envs nowTs fetched db
    ⟨gate.2, r.1, false, r.2⟩

/-- Success/failure outcome of each remote call made by `activatePlan`. -/
structure ActivateEnv where
  planErr : Bool
  insertErr : Bool
  debitErr : Bool
deriving DecidableEq, Repr

/-- The all-successful environment for `activatePlan`. -/
def ActivateEnv.ok : ActivateEnv := ⟨false, false, false⟩

/-- Observable steps of `activatePlan`, in the order they complete.
`toastSuccess`/`toastFailure` are the two toasts (lines 54-57, 62-66). -/
inductive AStep where
  | readPlan
  | insertInvestment
  | debitBal
  | toastSuccess
  | toastFailure
deriving DecidableEq, Repr

/-- Result of `activatePlan`: backend state, the trace of completed steps,
and either the returned investment record or the re-thrown error. -/
structure ActivateRes where
  db : DB
  trace : List AStep
  result : Except Unit Investment

/-- `activatePlan(planId, amount, userId)` (lines 11-69).  `nowTs` is the
timestamp of `new Date()` at line 23; `freshId` is the row id the backend
assigns to the inserted investment.  Each step throws on error; the catch
block logs, shows the failure toast and re-throws (`Except.error`). -/
def activatePlan (env : ActivateEnv) (db : DB) (planId : Nat) (amount : ℚ)
    (userId : Nat) (nowTs : Nat) (freshId : Nat) : ActivateRes :=
  match (if env.planErr then none else findPlan db planId) with
  | none => ⟨db, [.toastFailure], .error ()⟩
  | some plan =>
    let startTs := nowTs
    let endTs := nowTs + plan.duration_days * minutesPerDay
    let newInv : Investment :=
      ⟨freshId, userId, planId, amount, startTs, endTs, true, 0⟩
    if env.insertErr then
      ⟨db, [.readPlan, .toastFailure], .error ()⟩
    else
      let db1 := { db with investments := db.investments ++ [newInv] }
      if env.debitErr then
        ⟨db1, [.readPlan, .insertInvestment, .toastFailure], .error ()⟩
      else
        let db2 := debitBalance db1 userId amount
        ⟨db2, [.readPlan, .insertInvestment, .debitBal, .toastSuccess],
          .ok newInv⟩

/-- Outcome of the `recaptcha_settings` single-row fetch: a client error,
no row (`.single()` then reports an error), or a row. -/
inductive RecaptchaFetch where
  | err
  | missing
  | row (site_key : String) (is_enabled : Bool)
deriving DecidableEq, Repr

/-- The value `queryFn` resolves to. -/
structure RecaptchaSettingsView where
  enabled : Bool
  siteKey : Option String
deriving DecidableEq, Repr

/-- The `queryFn` of `RecaptchaWrapper` (lines 22-36): on an error or a
falsy `is_enabled` it resolves normally to `{ enabled: false }`; it never
rejects. -/
def recaptchaQueryFn (f : RecaptchaFetch) : RecaptchaSettingsView :=
  match f with
  | .err => ⟨false, none⟩
  | .missing => ⟨false, none⟩
  | .row k e => if e then ⟨true, some k⟩ else ⟨false, none⟩

/-- The render result of `RecaptchaWrapper` (lines 74-82): `none` models
`return null` (no DOM node); `some ()` models the container `div`. -/
def recaptchaRender (f : RecaptchaFetch) : Option Unit :=
  if (recaptchaQueryFn f).enabled then some () else none

/-! ### Helper lemmas about the gate -/

lemma shouldGenerateProfit_not_window (marker : Option Nat) (t : LocalTime)
    (h : inWindow t = false) : shouldGenerateProfit marker t = (false, marker) := by
  unfold shouldGenerateProfit
  by_cases hm : marker = some t.day <;> simp [hm, h]

lemma shouldGenerateProfit_marked (t : LocalTime) :
    shouldGenerateProfit (some t.day) t = (false, some t.day) := by
  simp [shouldGenerateProfit]

lemma runGate_marked (d : Nat) (ts : List LocalTime)
    (h : ∀ t ∈ ts, t.day = d) :
    runGate (some d) ts = ts.map (fun _ => false) := by
  induction ts with
  | nil => rfl
  | cons t ts ih =>
    have hd : t.day = d := h t (List.mem_cons_self t ts)
    have hstep : shouldGenerateProfit (some d) t = (false, some d) := by
      rw [← hd]; exact shouldGenerateProfit_marked t
    simp only [runGate, hstep, List.map_cons]
    exact congrArg _ (ih (fun t' ht' => h t' (List.mem_cons_of_mem _ ht')))

lemma find?_map_update (l : List Investment) (iid : Nat)
    (f : Investment → Investment) (hf : ∀ i, (f i).id = i.id) :
    (l.map fun i => if i.id == iid then f i else i).find?
        (fun i => i.id == iid)
      = (l.find? fun i => i.id == iid).map f := by
  induction l with
  | nil => rfl
  | cons a l ih =>
    by_cases h : (a.id == iid) = true
    · have hfa : ((f a).id == iid) = true := by rw [hf a]; exact h
      simp only [List.map_cons, if_pos h, if_true, List.find?_cons, hfa, h]
      rfl
    · have h' : (a.id == iid) = false := by simpa using h
      simp only [List.map_cons, h', Bool.false_eq_true, if_false,
        List.find?_cons, ih]

lemma findInv_updateInv (db : DB) (iid : Nat) (f : Investment → Investment)
    (hf : ∀ i, (f i).id = i.id) :
    findInv (updateInv db iid f) iid = (findInv db iid).map f :=
  find?_map_update db.investments iid f hf

lemma findInv_congr (db1 db2 : DB) (h : db1.investments = db2.investments)
    (i : Nat) : findInv db1 i = findInv db2 i := by
  simp [findInv, h]

/-- The success path of `generateDailyProfit` as a single equation. -/
lemma generateDailyProfit_eq_of_found (env : ProfitEnv) (db : DB) (iid : Nat)
    (amount pct : ℚ) (nowTs : Nat) (investment : Investment)
    (hf : env.fetchErr = false)
    (hfind : findInv db iid = some investment)
    (hnotexp : ¬ investment.end_date < nowTs)
    (hpu : env.profitUpdateErr = false) (hb : env.balanceErr = false)
    (hn : env.notifyErr = false) :
    generateDailyProfit env db iid amount pct nowTs =
      ⟨{ creditBalance (updateInv db iid (fun i =>
            { i with profit_earned := investment.profit_earned + amount * pct / 100 }))
          investment.user_id (amount * pct / 100) with
          notifications := db.notifications ++
            [⟨investment.user_id, "Daily Profit Credited", amount * pct / 100,
              ((findPlan db investment.plan_id).map Plan.name).getD "", "success"⟩] },
        false, false⟩ := by
  simp [generateDailyProfit, hf, hfind, hnotexp, hpu, hb, hn, creditBalance, updateInv]

/-- The expiry path of `generateDailyProfit` when the deactivation update
succeeds. -/
lemma generateDailyProfit_eq_expired (env : ProfitEnv) (db : DB) (iid : Nat)
    (amount pct : ℚ) (nowTs : Nat) (investment : Investment)
    (hf : env.fetchErr = false) (hd : env.deactivateErr = false)
    (hfind : findInv db iid = some investment)
    (hexp : investment.end_date < nowTs) :
    generateDailyProfit env db iid amount pct nowTs =
      ⟨updateInv db iid (fun i => { i with is_active := false }), false, true⟩ := by
  simp [generateDailyProfit, hf, hd, hfind, hexp, updateInv]

/-- The expiry path of `generateDailyProfit` when the deactivation update
fails: the error result is not inspected, so the function still logs the
deactivation and returns normally. -/
lemma generateDailyProfit_eq_expired_err (env : ProfitEnv) (db : DB)
    (iid : Nat) (amount pct : ℚ) (nowTs : Nat) (investment : Investment)
    (hf : env.fetchErr = false) (hd : env.deactivateErr = true)
    (hfind : findInv db iid = some investment)
    (hexp : investment.end_date < nowTs) :
    generateDailyProfit env db iid amount pct nowTs = ⟨db, false, true⟩ := by
  simp [generateDailyProfit, hf, hd, hfind, hexp]

/-- The path of `generateDailyProfit` where the profit update succeeds but
the balance credit fails. -/
lemma generateDailyProfit_eq_balance_err (env : ProfitEnv) (db : DB)
    (iid : Nat) (amount pct : ℚ) (nowTs : Nat) (investment : Investment)
    (hf : env.fetchErr = false) (hpu : env.profitUpdateErr = false)
    (hb : env.balanceErr = true)
    (hfind : findInv db iid = some investment)
    (hnotexp : ¬ investment.end_date < nowTs) :
    generateDailyProfit env db iid amount pct nowTs =
      ⟨updateInv db iid (fun i =>
          { i with profit_earned := investment.profit_earned + amount * pct / 100 }),
        true, false⟩ := by
  simp [generateDailyProfit, hf, hpu, hb, hfind, hnotexp, updateInv]

/-- C1: within one calendar day (all calls on day `d`, the in-memory
marker not yet set to `d`), `shouldGenerateProfit` returns `true` exactly
at the first call whose wall-clock time lies in [00:00, 00:05), and
`false` at every other call — in particular at every out-of-window call
and at every call after the first `true`. -/
theorem shouldGenerateProfit_once_per_day (marker : Option Nat) (d : Nat)
    (ts : List LocalTime) (hm : marker ≠ some d)
    (hd : ∀ t ∈ ts, t.day = d) :
    runGate marker ts = firstTrigger ts := by
  induction ts generalizing marker with
  | nil => rfl
  | cons t ts ih =>
    have htd : t.day = d := hd t (List.mem_cons_self t ts)
    have hrest : ∀ t' ∈ ts, t'.day = d :=
      fun t' ht' => hd t' (List.mem_cons_of_mem _ ht')
    by_cases hw : inWindow t = true
    · have hstep : shouldGenerateProfit marker t = (true, some t.day) := by
        unfold shouldGenerateProfit
        rw [if_neg (htd ▸ hm), if_pos hw]
      simp only [runGate, hstep, firstTrigger, if_pos hw]
      exact congrArg _ (htd ▸ runGate_marked d ts hrest)
    · have hw' : inWindow t = false := by
        simpa using hw
      have hstep := shouldGenerateProfit_not_window marker t hw'
      simp only [runGate, hstep, firstTrigger, hw', if_neg]
      simp only [Bool.false_eq_true, if_false]
      exact congrArg _ (ih marker hm hrest)

/-- Witness for C1 at a concrete day of four calls: only the first
in-window call (00:02) triggers; the later in-window call (00:03) and the
out-of-window calls do not. -/
theorem shouldGenerateProfit_once_per_day_witness :
    ((none : Option Nat) ≠ some 5) ∧
    (∀ t ∈ [(⟨5, 3, 0⟩ : LocalTime), ⟨5, 0, 2⟩, ⟨5, 0, 3⟩, ⟨5, 10, 0⟩], t.day = 5) ∧
    runGate none [(⟨5, 3, 0⟩ : LocalTime), ⟨5, 0, 2⟩, ⟨5, 0, 3⟩, ⟨5, 10, 0⟩] =
      [false, true, false, false] :=
  ⟨by decide, by decide,
    (shouldGenerateProfit_once_per_day none 5 _ (by decide) (by decide)).trans
      (by decide)⟩

/-! ### Sample data for concrete witnesses -/

/-- A concrete plan: 30 days, 2% daily. -/
def samplePlan : Plan := ⟨1, "Gold", 30, 2⟩

/-- A concrete investment of 1000 in `samplePlan`, ending at timestamp
43200 (day 30), with 5 profit accrued so far. -/
def sampleInv : Investment := ⟨7, 42, 1, 1000, 0, 43200, true, 5⟩

/-- A concrete backend state holding `samplePlan` and `sampleInv`, every
balance 100, no notifications. -/
def sampleDB : DB := ⟨[samplePlan], [sampleInv], fun _ => 100, []⟩

/-- C2: on the success path, `generateDailyProfit` credits exactly
`amount * dailyProfitPercentage / 100`: `profit_earned` grows by that
value, the user balance grows by the same value, and the success
notification carries the same value. -/
theorem generateDailyProfit_credits_daily_profit
    (db : DB) (iid : Nat) (amount pct : ℚ) (nowTs : Nat)
    (investment : Investment)
    (hfind : findInv db iid = some investment)
    (hnotexp : ¬ investment.end_date < nowTs) :
    (generateDailyProfit ProfitEnv.ok db iid amount pct nowTs).errorLogged = false ∧
    (generateDailyProfit ProfitEnv.ok db iid amount pct nowTs).deactivated = false ∧
    findInv (generateDailyProfit ProfitEnv.ok db iid amount pct nowTs).db iid =
      some { investment with
        profit_earned := investment.profit_earned + amount * pct / 100 } ∧
    (generateDailyProfit ProfitEnv.ok db iid amount pct nowTs).db.balance
        investment.user_id
      = db.balance investment.user_id + amount * pct / 100 ∧
    (generateDailyProfit ProfitEnv.ok db iid amount pct nowTs).db.notifications
      = db.notifications ++
        [⟨investment.user_id, "Daily Profit Credited", amount * pct / 100,
          ((findPlan db investment.plan_id).map Plan.name).getD "", "success"⟩] := by
  rw [generateDailyProfit_eq_of_found ProfitEnv.ok db iid amount pct nowTs
    investment rfl hfind hnotexp rfl rfl rfl]
  refine ⟨rfl, rfl, ?_, ?_, rfl⟩
  · exact (findInv_congr _
        (updateInv db iid (fun i =>
          { i with profit_earned := investment.profit_earned + amount * pct / 100 }))
        (by simp [creditBalance, updateInv]) iid).trans
      ((findInv_updateInv db iid (fun i =>
          { i with profit_earned := investment.profit_earned + amount * pct / 100 })
        (fun i => rfl)).trans (by rw [hfind]; rfl))
  · simp [creditBalance, updateInv]

/-- Witness for C2 at amount 1000 and percentage 2: the credited profit is
`1000 * 2 / 100 = 20`, added both to `profit_earned` (5 → 25) and to the
user balance (100 → 120). -/
theorem generateDailyProfit_credits_daily_profit_witness :
    (findInv sampleDB 7 = some sampleInv) ∧
    (¬ sampleInv.end_date < 600) ∧
    ((1000 : ℚ) * 2 / 100 = 20) ∧
    ((generateDailyProfit ProfitEnv.ok sampleDB 7 1000 2 600).errorLogged = false ∧
     (generateDailyProfit ProfitEnv.ok sampleDB 7 1000 2 600).deactivated = false ∧
     findInv (generateDailyProfit ProfitEnv.ok sampleDB 7 1000 2 600).db 7 =
       some { sampleInv with
         profit_earned := sampleInv.profit_earned + 1000 * 2 / 100 } ∧
     (generateDailyProfit ProfitEnv.ok sampleDB 7 1000 2 600).db.balance
         sampleInv.user_id
       = sampleDB.balance sampleInv.user_id + 1000 * 2 / 100 ∧
     (generateDailyProfit ProfitEnv.ok sampleDB 7 1000 2 600).db.notifications
       = sampleDB.notifications ++
         [⟨sampleInv.user_id, "Daily Profit Credited", 1000 * 2 / 100,
           ((findPlan sampleDB sampleInv.plan_id).map Plan.name).getD "",
           "success"⟩]) :=
  ⟨by decide, by decide, by norm_num,
    generateDailyProfit_credits_daily_profit sampleDB 7 1000 2 600 sampleInv
      (by decide) (by decide)⟩

/-- C5: for an expired investment (its `end_date` before the processing
time), `generateDailyProfit` flips `is_active` to `false` and stops: the
record's `profit_earned` is unchanged, no balance changes, and no
notification is recorded. -/
theorem generateDailyProfit_expired_deactivates
    (env : ProfitEnv) (db : DB) (iid : Nat) (amount pct : ℚ) (nowTs : Nat)
    (investment : Investment)
    (hf : env.fetchErr = false) (hd : env.deactivateErr = false)
    (hfind : findInv db iid = some investment)
    (hexp : investment.end_date < nowTs) :
    findInv (generateDailyProfit env db iid amount pct nowTs).db iid =
      some { investment with is_active := false } ∧
    (∀ u, (generateDailyProfit env db iid amount pct nowTs).db.balance u
      = db.balance u) ∧
    (generateDailyProfit env db iid amount pct nowTs).db.notifications
      = db.notifications ∧
    (generateDailyProfit env db iid amount pct nowTs).deactivated = true ∧
    (generateDailyProfit env db iid amount pct nowTs).errorLogged = false := by
  rw [generateDailyProfit_eq_expired env db iid amount pct nowTs investment
    hf hd hfind hexp]
  refine ⟨?_, fun u => rfl, rfl, rfl, rfl⟩
  exact (findInv_updateInv db iid (fun i => { i with is_active := false })
    (fun i => rfl)).trans (by rw [hfind]; rfl)

/-- Witness for C5: at time 50000 the sample investment (end 43200) is
expired; it is deactivated with `profit_earned` still 5, balances and
notifications untouched. -/
theorem generateDailyProfit_expired_deactivates_witness :
    (ProfitEnv.ok.fetchErr = false) ∧
    (ProfitEnv.ok.deactivateErr = false) ∧
    (findInv sampleDB 7 = some sampleInv) ∧
    (sampleInv.end_date < 50000) ∧
    (findInv (generateDailyProfit ProfitEnv.ok sampleDB 7 1000 2 50000).db 7 =
       some { sampleInv with is_active := false } ∧
     (∀ u, (generateDailyProfit ProfitEnv.ok sampleDB 7 1000 2 50000).db.balance u
       = sampleDB.balance u) ∧
     (generateDailyProfit ProfitEnv.ok sampleDB 7 1000 2 50000).db.notifications
       = sampleDB.notifications ∧
     (generateDailyProfit ProfitEnv.ok sampleDB 7 1000 2 50000).deactivated = true ∧
     (generateDailyProfit ProfitEnv.ok sampleDB 7 1000 2 50000).errorLogged = false) :=
  ⟨rfl, rfl, by decide, by decide,
    generateDailyProfit_expired_deactivates ProfitEnv.ok sampleDB 7 1000 2
      50000 sampleInv rfl rfl (by decide) (by decide)⟩

/-- C9: if the balance-credit rpc fails after the `profit_earned` update
succeeded, nothing is compensated: `profit_earned` stays increased by the
daily profit, no balance changes, no notification is recorded, and the
error is logged and swallowed (`errorLogged`, no exception escapes since
`generateDailyProfit` is total). -/
theorem generateDailyProfit_balance_failure_no_rollback
    (env : ProfitEnv) (db : DB) (iid : Nat) (amount pct : ℚ) (nowTs : Nat)
    (investment : Investment)
    (hf : env.fetchErr = false) (hpu : env.profitUpdateErr = false)
    (hb : env.balanceErr = true)
    (hfind : findInv db iid = some investment)
    (hnotexp : ¬ investment.end_date < nowTs) :
    findInv (generateDailyProfit env db iid amount pct nowTs).db iid =
      some { investment with
        profit_earned := investment.profit_earned + amount * pct / 100 } ∧
    (∀ u, (generateDailyProfit env db iid amount pct nowTs).db.balance u
      = db.balance u) ∧
    (generateDailyProfit env db iid amount pct nowTs).db.notifications
      = db.notifications ∧
    (generateDailyProfit env db iid amount pct nowTs).errorLogged = true ∧
    (generateDailyProfit env db iid amount pct nowTs).deactivated = false := by
  rw [generateDailyProfit_eq_balance_err env db iid amount pct nowTs
    investment hf hpu hb hfind hnotexp]
  refine ⟨?_, fun u => rfl, rfl, rfl, rfl⟩
  exact (findInv_updateInv db iid (fun i =>
      { i with profit_earned := investment.profit_earned + amount * pct / 100 })
    (fun i => rfl)).trans (by rw [hfind]; rfl)

/-- Witness for C9: with only the balance rpc failing, `profit_earned`
goes from 5 to 25 while the balance stays 100 and nothing is notified. -/
theorem generateDailyProfit_balance_failure_no_rollback_witness :
    ((⟨false, false, false, true, false⟩ : ProfitEnv).fetchErr = false) ∧
    ((⟨false, false, false, true, false⟩ : ProfitEnv).profitUpdateErr = false) ∧
    ((⟨false, false, false, true, false⟩ : ProfitEnv).balanceErr = true) ∧
    (findInv sampleDB 7 = some sampleInv) ∧
    (¬ sampleInv.end_date < 600) ∧
    (findInv (generateDailyProfit ⟨false, false, false, true, false⟩
        sampleDB 7 1000 2 600).db 7 =
      some { sampleInv with
        profit_earned := sampleInv.profit_earned + 1000 * 2 / 100 } ∧
     (∀ u, (generateDailyProfit ⟨false, false, false, true, false⟩
        sampleDB 7 1000 2 600).db.balance u = sampleDB.balance u) ∧
     (generateDailyProfit ⟨false, false, false, true, false⟩
        sampleDB 7 1000 2 600).db.notifications = sampleDB.notifications ∧
     (generateDailyProfit ⟨false, false, false, true, false⟩
        sampleDB 7 1000 2 600).errorLogged = true ∧
     (generateDailyProfit ⟨false, false, false, true, false⟩
        sampleDB 7 1000 2 600).deactivated = false) :=
  ⟨rfl, rfl, rfl, by decide, by decide,
    generateDailyProfit_balance_failure_no_rollback
      ⟨false, false, false, true, false⟩ sampleDB 7 1000 2 600 sampleInv
      rfl rfl rfl (by decide) (by decide)⟩

/-- C10: in the expiry branch the error result of the deactivation update
is never inspected: for every environment (the deactivation update may
succeed or fail), the function logs the deactivation (`deactivated`) and
returns normally without entering the catch block (`errorLogged` false). -/
theorem generateDailyProfit_expiry_ignores_update_error
    (env : ProfitEnv) (db : DB) (iid : Nat) (amount pct : ℚ) (nowTs : Nat)
    (investment : Investment)
    (hf : env.fetchErr = false)
    (hfind : findInv db iid = some investment)
    (hexp : investment.end_date < nowTs) :
    (generateDailyProfit env db iid amount pct nowTs).deactivated = true ∧
    (generateDailyProfit env db iid amount pct nowTs).errorLogged = false := by
  rcases hd : env.deactivateErr with _ | _
  · rw [generateDailyProfit_eq_expired env db iid amount pct nowTs
      investment hf hd hfind hexp]
    exact ⟨rfl, rfl⟩
  · rw [generateDailyProfit_eq_expired_err env db iid amount pct nowTs
      investment hf hd hfind hexp]
    exact ⟨rfl, rfl⟩

/-- Witness for C10 with a failing deactivation update: the function still
reports the deactivation and no error is logged. -/
theorem generateDailyProfit_expiry_ignores_update_error_witness :
    ((⟨false, true, false, false, false⟩ : ProfitEnv).fetchErr = false) ∧
    (findInv sampleDB 7 = some sampleInv) ∧
    (sampleInv.end_date < 50000) ∧
    ((generateDailyProfit ⟨false, true, false, false, false⟩
        sampleDB 7 1000 2 50000).deactivated = true ∧
     (generateDailyProfit ⟨false, true, false, false, false⟩
        sampleDB 7 1000 2 50000).errorLogged = false) :=
  ⟨rfl, by decide, by decide,
    generateDailyProfit_expiry_ignores_update_error
      ⟨false, true, false, false, false⟩ sampleDB 7 1000 2 50000 sampleInv
      rfl (by decide) (by decide)⟩

/-- The path of `generateDailyProfit` where the `profit_earned` update
itself fails: nothing changes, the error is logged and swallowed. -/
lemma generateDailyProfit_eq_profit_update_err (env : ProfitEnv) (db : DB)
    (iid : Nat) (amount pct : ℚ) (nowTs : Nat) (investment : Investment)
    (hf : env.fetchErr = false) (hpu : env.profitUpdateErr = true)
    (hfind : findInv db iid = some investment)
    (hnotexp : ¬ investment.end_date < nowTs) :
    generateDailyProfit env db iid amount pct nowTs = ⟨db, true, false⟩ := by
  simp [generateDailyProfit, hf, hpu, hfind, hnotexp]

lemma find?_map_pred_preserving (p : Investment → Bool)
    (g : Investment → Investment) (hg : ∀ i, p (g i) = p i)
    (l : List Investment) : (l.map g).find? p = (l.find? p).map g := by
  induction l with
  | nil => rfl
  | cons a l ih =>
    by_cases h : p a = true
    · have h2 : p (g a) = true := by rw [hg]; exact h
      simp only [List.map_cons, List.find?_cons, h2, h]
      rfl
    · have h' : p a = false := by simpa using h
      have h2 : p (g a) = false := by rw [hg]; exact h'
      simp only [List.map_cons, List.find?_cons, h2, h', ih]

/-- Looking up one id after updating a different id: the update function
is applied pointwise to whatever the lookup previously returned. -/
lemma findInv_updateInv_other (db : DB) (iid jid : Nat)
    (f : Investment → Investment) (hf : ∀ i, (f i).id = i.id) :
    findInv (updateInv db iid f) jid =
      (findInv db jid).map (fun i => if i.id == iid then f i else i) :=
  find?_map_pred_preserving (fun i => i.id == jid) _
    (fun i => by
      by_cases h : (i.id == iid) = true
      · simp only [if_pos h, hf]
      · simp only [if_neg h])
    db.investments

/-- C3: on a successful activation the returned investment record has
`start_date` the activation instant, `end_date` exactly
`plan.duration_days` days later, `profit_earned = 0` and
`is_active = true`, and the steps complete in the order
plan read → investment insert → balance debit → success toast. -/
theorem activatePlan_success
    (db : DB) (planId : Nat) (amount : ℚ) (userId nowTs freshId : Nat)
    (plan : Plan) (hplan : findPlan db planId = some plan) :
    (activatePlan ActivateEnv.ok db planId amount userId nowTs freshId).result
      = Except.ok
        { id := freshId, user_id := userId, plan_id := planId,
          amount := amount, start_date := nowTs,
          end_date := nowTs + plan.duration_days * minutesPerDay,
          is_active := true, profit_earned := 0 } ∧
    (activatePlan ActivateEnv.ok db planId amount userId nowTs freshId).trace
      = [AStep.readPlan, AStep.insertInvestment, AStep.debitBal,
         AStep.toastSuccess] := by
  simp [activatePlan, ActivateEnv.ok, hplan]

/-- Witness for C3: activating the 30-day sample plan at time 100 yields
an investment ending at `100 + 30 * 1440`, inactive in no field, with
zero accrued profit, and the four steps in order. -/
theorem activatePlan_success_witness :
    (findPlan sampleDB 1 = some samplePlan) ∧
    ((activatePlan ActivateEnv.ok sampleDB 1 250 42 100 9).result
      = Except.ok
        { id := 9, user_id := 42, plan_id := 1, amount := 250,
          start_date := 100,
          end_date := 100 + samplePlan.duration_days * minutesPerDay,
          is_active := true, profit_earned := 0 } ∧
     (activatePlan ActivateEnv.ok sampleDB 1 250 42 100 9).trace
      = [AStep.readPlan, AStep.insertInvestment, AStep.debitBal,
         AStep.toastSuccess]) :=
  ⟨by decide,
    activatePlan_success sampleDB 1 250 42 100 9 samplePlan (by decide)⟩

/-- C4: whenever a step of `activatePlan` fails, the remaining steps are
skipped and the error is re-thrown: no success toast, a failure toast,
`Except.error` to the caller; and when the failing step is the balance
debit, the investment record inserted just before persists in the backend
while the balance is untouched (no compensation). -/
theorem activatePlan_failure
    (env : ActivateEnv) (db : DB) (planId : Nat) (amount : ℚ)
    (userId nowTs freshId : Nat)
    (hfail : env.planErr = true ∨ env.insertErr = true ∨ env.debitErr = true) :
    (activatePlan env db planId amount userId nowTs freshId).result
      = Except.error () ∧
    AStep.toastSuccess ∉
      (activatePlan env db planId amount userId nowTs freshId).trace ∧
    AStep.toastFailure ∈
      (activatePlan env db planId amount userId nowTs freshId).trace ∧
    (env.planErr = false → env.insertErr = false → env.debitErr = true →
      ∀ plan, findPlan db planId = some plan →
      ({ id := freshId, user_id := userId, plan_id := planId,
         amount := amount, start_date := nowTs,
         end_date := nowTs + plan.duration_days * minutesPerDay,
         is_active := true, profit_earned := 0 } : Investment) ∈
        (activatePlan env db planId amount userId nowTs freshId).db.investments ∧
      (∀ u, (activatePlan env db planId amount userId nowTs freshId).db.balance u
        = db.balance u)) := by
  by_cases hp : env.planErr = true
  · refine ⟨?_, ?_, ?_, ?_⟩ <;> simp [activatePlan, hp]
  · have hp' : env.planErr = false := by simpa using hp
    cases hfp : findPlan db planId with
    | none =>
      refine ⟨?_, ?_, ?_, ?_⟩ <;> simp [activatePlan, hp', hfp]
    | some plan =>
      by_cases hi : env.insertErr = true
      · refine ⟨?_, ?_, ?_, ?_⟩ <;> simp [activatePlan, hp', hfp, hi]
      · have hi' : env.insertErr = false := by simpa using hi
        have hd : env.debitErr = true := by
          rcases hfail with h | h | h
          · rw [h] at hp'; exact absurd hp' (by simp)
          · rw [h] at hi'; exact absurd hi' (by simp)
          · exact h
        refine ⟨?_, ?_, ?_, ?_⟩ <;> simp [activatePlan, hp', hfp, hi', hd]

/-- Witness for C4 with a failing balance debit on the sample data: the
call errors, only the failure toast shows, and the inserted investment
record is still present while the balance is untouched. -/
theorem activatePlan_failure_witness :
    ((⟨false, false, true⟩ : ActivateEnv).planErr = true ∨
     (⟨false, false, true⟩ : ActivateEnv).insertErr = true ∨
     (⟨false, false, true⟩ : ActivateEnv).debitErr = true) ∧
    (activatePlan ⟨false, false, true⟩ sampleDB 1 250 42 100 9).result
      = Except.error () ∧
    AStep.toastSuccess ∉
      (activatePlan ⟨false, false, true⟩ sampleDB 1 250 42 100 9).trace ∧
    AStep.toastFailure ∈
      (activatePlan ⟨false, false, true⟩ sampleDB 1 250 42 100 9).trace ∧
    ({ id := 9, user_id := 42, plan_id := 1, amount := 250,
       start_date := 100,
       end_date := 100 + samplePlan.duration_days * minutesPerDay,
       is_active := true, profit_earned := 0 } : Investment) ∈
      (activatePlan ⟨false, false, true⟩ sampleDB 1 250 42 100 9).db.investments ∧
    (∀ u, (activatePlan ⟨false, false, true⟩ sampleDB 1 250 42 100 9).db.balance u
      = sampleDB.balance u) := by
  have h := activatePlan_failure ⟨false, false, true⟩ sampleDB 1 250 42 100 9
    (Or.inr (Or.inr rfl))
  have h4 := h.2.2.2 rfl rfl rfl samplePlan (by decide)
  exact ⟨Or.inr (Or.inr rfl), h.1, h.2.1, h.2.2.1, h4.1, h4.2⟩

/-- C7: on a fetch error, a missing configuration row, or a row with
`is_enabled = false`, the wrapper renders no DOM node; the query function
resolves normally (never rejects) and a fetch error yields exactly the
same resolved value as a disabled or missing configuration. -/
theorem recaptcha_disabled_renders_nothing (k : String) :
    recaptchaRender RecaptchaFetch.err = none ∧
    recaptchaRender RecaptchaFetch.missing = none ∧
    recaptchaRender (RecaptchaFetch.row k false) = none ∧
    recaptchaQueryFn RecaptchaFetch.err
      = recaptchaQueryFn (RecaptchaFetch.row k false) ∧
    recaptchaQueryFn RecaptchaFetch.missing = recaptchaQueryFn RecaptchaFetch.err :=
  ⟨rfl, rfl, rfl, rfl, rfl⟩

/-- Witness for C7 at a concrete site key. -/
theorem recaptcha_disabled_renders_nothing_witness :
    recaptchaRender (RecaptchaFetch.row "site-key" false) = none ∧
    recaptchaQueryFn RecaptchaFetch.err
      = recaptchaQueryFn (RecaptchaFetch.row "site-key" false) :=
  ⟨(recaptcha_disabled_renders_nothing "site-key").2.2.1,
   (recaptcha_disabled_renders_nothing "site-key").2.2.2.1⟩

/-- C8: the day marker is set inside the gate, before any remote call, so
a cycle whose batch fetch fails (batch error logged, backend untouched)
still consumes the day's single trigger: the gate then returns `false`
for the rest of day `d`, and a subsequent cycle on day `d` does nothing. -/
theorem gate_consumed_by_failed_cycle
    (envs envs2 : Nat → ProfitEnv) (batchErr2 : Bool)
    (now1 now2 : LocalTime) (nowTs1 nowTs2 : Nat)
    (marker : Option Nat) (db : DB) (d : Nat)
    (h1d : now1.day = d) (h2d : now2.day = d)
    (hm : marker ≠ some d) (hw : inWindow now1 = true) :
    (generateProfitsForActiveInvestments true envs now1 nowTs1 marker db).marker
      = some d ∧
    (generateProfitsForActiveInvestments true envs now1 nowTs1 marker db).db
      = db ∧
    (generateProfitsForActiveInvestments true envs now1 nowTs1 marker db).batchErrorLogged
      = true ∧
    (shouldGenerateProfit (some d) now2).1 = false ∧
    (generateProfitsForActiveInvestments batchErr2 envs2 now2 nowTs2
        (generateProfitsForActiveInvestments true envs now1 nowTs1 marker db).marker
        (generateProfitsForActiveInvestments true envs now1 nowTs1 marker db).db).db
      = db ∧
    (generateProfitsForActiveInvestments batchErr2 envs2 now2 nowTs2
        (generateProfitsForActiveInvestments true envs now1 nowTs1 marker db).marker
        (generateProfitsForActiveInvestments true envs now1 nowTs1 marker db).db).marker
      = some d ∧
    (generateProfitsForActiveInvestments batchErr2 envs2 now2 nowTs2
        (generateProfitsForActiveInvestments true envs now1 nowTs1 marker db).marker
        (generateProfitsForActiveInvestments true envs now1 nowTs1 marker db).db).recordErrors
      = [] := by
  have hm1 : marker ≠ some now1.day := by rw [h1d]; exact hm
  have hg1 : shouldGenerateProfit marker now1 = (true, some d) := by
    unfold shouldGenerateProfit
    rw [if_neg hm1, if_pos hw, h1d]
  have hr1 : generateProfitsForActiveInvestments true envs now1 nowTs1 marker db
      = ⟨some d, db, true, []⟩ := by
    simp [generateProfitsForActiveInvestments, hg1]
  have hg2 : shouldGenerateProfit (some d) now2 = (false, some d) := by
    rw [← h2d]
    exact shouldGenerateProfit_marked now2
  have hr2 : generateProfitsForActiveInvestments batchErr2 envs2 now2 nowTs2
      (some d) db = ⟨some d, db, false, []⟩ := by
    simp [generateProfitsForActiveInvestments, hg2]
  rw [hr1]
  exact ⟨rfl, rfl, rfl, by rw [hg2], by rw [hr2], by rw [hr2], by rw [hr2]⟩

/-- Witness for C8: with an empty marker on day 5, an in-window failing
cycle at 00:01 consumes the trigger; a later 14:00 cycle the same day is
gated off and changes nothing. -/
theorem gate_consumed_by_failed_cycle_witness :
    ((⟨5, 0, 1⟩ : LocalTime).day = 5) ∧
    ((⟨5, 14, 0⟩ : LocalTime).day = 5) ∧
    ((none : Option Nat) ≠ some 5) ∧
    (inWindow ⟨5, 0, 1⟩ = true) ∧
    ((generateProfitsForActiveInvestments true (fun _ => ProfitEnv.ok)
        ⟨5, 0, 1⟩ 600 none sampleDB).marker = some 5 ∧
     (generateProfitsForActiveInvestments true (fun _ => ProfitEnv.ok)
        ⟨5, 0, 1⟩ 600 none sampleDB).db = sampleDB ∧
     (generateProfitsForActiveInvestments true (fun _ => ProfitEnv.ok)
        ⟨5, 0, 1⟩ 600 none sampleDB).batchErrorLogged = true ∧
     (shouldGenerateProfit (some 5) ⟨5, 14, 0⟩).1 = false) := by
  have h := gate_consumed_by_failed_cycle (fun _ => ProfitEnv.ok)
    (fun _ => ProfitEnv.ok) false ⟨5, 0, 1⟩ ⟨5, 14, 0⟩ 600 600 none sampleDB 5
    rfl rfl (by decide) (by decide)
  exact ⟨rfl, rfl, by decide, by decide, h.1, h.2.1, h.2.2.1, h.2.2.2.1⟩

/-- C6: one cycle with two fetched records where processing of the first
fails (its `profit_earned` update errors) and the second succeeds: the
first record's failure is logged and swallowed, the second record is
still fully processed (profit credited), and the first record is left
unchanged.  Conversely a batch-fetch failure aborts the whole cycle —
the backend is untouched and only the batch error is logged, with no user
notification. -/
theorem cycle_isolates_record_failures
    (envs : Nat → ProfitEnv) (now : LocalTime) (nowTs : Nat)
    (marker : Option Nat) (db : DB) (a b : Investment) (pb : Plan)
    (hm : marker ≠ some now.day) (hw : inWindow now = true)
    (hinv : db.investments = [a, b]) (hab : a.id ≠ b.id)
    (haact : a.is_active = true) (hbact : b.is_active = true)
    (hae : nowTs ≤ a.end_date) (hbe : nowTs ≤ b.end_date)
    (hpb : findPlan db b.plan_id = some pb)
    (henva : envs a.id = ⟨false, false, true, false, false⟩)
    (henvb : envs b.id = ProfitEnv.ok) :
    (generateProfitsForActiveInvestments false envs now nowTs marker db).recordErrors
      = [a.id] ∧
    findInv (generateProfitsForActiveInvestments false envs now nowTs marker db).db b.id
      = some { b with profit_earned :=
          b.profit_earned + b.amount * pb.daily_profit_percentage / 100 } ∧
    findInv (generateProfitsForActiveInvestments false envs now nowTs marker db).db a.id
      = some a ∧
    (generateProfitsForActiveInvestments false envs now nowTs marker db).batchErrorLogged
      = false ∧
    (∀ envs2 : Nat → ProfitEnv,
      (generateProfitsForActiveInvestments true envs2 now nowTs marker db).db = db ∧
      (generateProfitsForActiveInvestments true envs2 now nowTs marker db).batchErrorLogged
        = true ∧
      (generateProfitsForActiveInvestments true envs2 now nowTs marker db).recordErrors
        = []) := by
  have hg : shouldGenerateProfit marker now = (true, some now.day) := by
    unfold shouldGenerateProfit
    rw [if_neg hm, if_pos hw]
  have habne : (a.id == b.id) = false := by
    simpa using hab
  have hfinda : findInv db a.id = some a := by
    simp [findInv, hinv, List.find?]
  have hfindb : findInv db b.id = some b := by
    simp [findInv, hinv, List.find?, habne]
  have hnea : ¬ a.end_date < nowTs := Nat.not_lt.mpr hae
  have hneb : ¬ b.end_date < nowTs := Nat.not_lt.mpr hbe
  have hfilter : db.investments.filter
      (fun i => i.is_active && nowTs ≤ i.end_date) = [a, b] := by
    rw [hinv]
    simp [List.filter, haact, hbact, hae, hbe]
  have hstepa : generateDailyProfit (envs a.id) db a.id a.amount
      (((findPlan db a.plan_id).map Plan.daily_profit_percentage).getD 0) nowTs
      = ⟨db, true, false⟩ := by
    refine generateDailyProfit_eq_profit_update_err _ db a.id _ _ nowTs a
      ?_ ?_ hfinda hnea <;> rw [henva]
  have hstepb : generateDailyProfit (envs b.id) db b.id b.amount
      pb.daily_profit_percentage nowTs
      = ⟨{ creditBalance (updateInv db b.id (fun i => { i with profit_earned :=
            b.profit_earned + b.amount * pb.daily_profit_percentage / 100 }))
          b.user_id (b.amount * pb.daily_profit_percentage / 100) with
          notifications := db.notifications ++
            [⟨b.user_id, "Daily Profit Credited",
              b.amount * pb.daily_profit_percentage / 100,
              ((findPlan db b.plan_id).map Plan.name).getD "", "success"⟩] },
        false, false⟩ := by
    refine generateDailyProfit_eq_of_found _ db b.id _ _ nowTs b
      ?_ hfindb hneb ?_ ?_ ?_ <;> (rw [henvb]; rfl)
  have hpct : ((findPlan db b.plan_id).map Plan.daily_profit_percentage).getD 0
      = pb.daily_profit_percentage := by
    rw [hpb]; rfl
  have hloop : runCycleLoop envs nowTs [a, b] db =
      ({ creditBalance (updateInv db b.id (fun i => { i with profit_earned :=
            b.profit_earned + b.amount * pb.daily_profit_percentage / 100 }))
          b.user_id (b.amount * pb.daily_profit_percentage / 100) with
          notifications := db.notifications ++
            [⟨b.user_id, "Daily Profit Credited",
              b.amount * pb.daily_profit_percentage / 100,
              ((findPlan db b.plan_id).map Plan.name).getD "", "success"⟩] },
        [a.id]) := by
    simp only [runCycleLoop, hstepa, hpct, hstepb]
    rfl
  have hcycle : generateProfitsForActiveInvestments false envs now nowTs marker db
      = ⟨some now.day,
        { creditBalance (updateInv db b.id (fun i => { i with profit_earned :=
              b.profit_earned + b.amount * pb.daily_profit_percentage / 100 }))
            b.user_id (b.amount * pb.daily_profit_percentage / 100) with
            notifications := db.notifications ++
              [⟨b.user_id, "Daily Profit Credited",
                b.amount * pb.daily_profit_percentage / 100,
                ((findPlan db b.plan_id).map Plan.name).getD "", "success"⟩] },
        false, [a.id]⟩ := by
    simp only [generateProfitsForActiveInvestments, hg, hfilter]
    rw [hloop]
    rfl
  have hr2 : ∀ envs2 : Nat → ProfitEnv,
      generateProfitsForActiveInvestments true envs2 now nowTs marker db
        = ⟨some now.day, db, true, []⟩ := by
    intro envs2
    simp [generateProfitsForActiveInvestments, hg]
  refine ⟨by rw [hcycle], ?_, ?_, by rw [hcycle],
    fun envs2 => ⟨by rw [hr2 envs2], by rw [hr2 envs2], by rw [hr2 envs2]⟩⟩
  · rw [hcycle]
    exact (findInv_congr _
        (updateInv db b.id (fun i => { i with profit_earned :=
          b.profit_earned + b.amount * pb.daily_profit_percentage / 100 }))
        (by simp [creditBalance, updateInv]) b.id).trans
      ((findInv_updateInv db b.id (fun i => { i with profit_earned :=
          b.profit_earned + b.amount * pb.daily_profit_percentage / 100 })
        (fun i => rfl)).trans (by rw [hfindb]; rfl))
  · rw [hcycle]
    refine (findInv_congr _
        (updateInv db b.id (fun i => { i with profit_earned :=
          b.profit_earned + b.amount * pb.daily_profit_percentage / 100 }))
        (by simp [creditBalance, updateInv]) a.id).trans
      ((findInv_updateInv_other db b.id a.id (fun i => { i with profit_earned :=
          b.profit_earned + b.amount * pb.daily_profit_percentage / 100 })
        (fun i => rfl)).trans ?_)
    rw [hfinda]
    simp [habne]
    intro h
    exact absurd h hab

/-- A second concrete investment (id 8, user 43, 500 in `samplePlan`). -/
def sampleInvB : Investment := ⟨8, 43, 1, 500, 0, 43200, true, 0⟩

/-- A backend with two active investments, for the cycle witness. -/
def samplePairDB : DB := ⟨[samplePlan], [sampleInv, sampleInvB], fun _ => 100, []⟩

/-- Per-record environments: investment 7 hits a failing `profit_earned`
update, everything else succeeds. -/
def sampleEnvs : Nat → ProfitEnv :=
  fun n => if n == 7 then ⟨false, false, true, false, false⟩ else ProfitEnv.ok

/-- Witness for C6: in one cycle, record 7 fails (logged) but record 8 is
still processed and credited 500 * 2 / 100 = 10; with a failing batch
fetch instead, nothing changes and only the batch error is logged. -/
theorem cycle_isolates_record_failures_witness :
    ((none : Option Nat) ≠ some (⟨5, 0, 0⟩ : LocalTime).day) ∧
    (inWindow ⟨5, 0, 0⟩ = true) ∧
    (samplePairDB.investments = [sampleInv, sampleInvB]) ∧
    (sampleInv.id ≠ sampleInvB.id) ∧
    (sampleEnvs sampleInv.id = ⟨false, false, true, false, false⟩) ∧
    (sampleEnvs sampleInvB.id = ProfitEnv.ok) ∧
    (sampleInvB.amount * samplePlan.daily_profit_percentage / 100 = 10) ∧
    ((generateProfitsForActiveInvestments false sampleEnvs ⟨5, 0, 0⟩ 600
        none samplePairDB).recordErrors = [sampleInv.id] ∧
     findInv (generateProfitsForActiveInvestments false sampleEnvs ⟨5, 0, 0⟩ 600
        none samplePairDB).db sampleInvB.id
       = some { sampleInvB with profit_earned := sampleInvB.profit_earned +
           sampleInvB.amount * samplePlan.daily_profit_percentage / 100 } ∧
     findInv (generateProfitsForActiveInvestments false sampleEnvs ⟨5, 0, 0⟩ 600
        none samplePairDB).db sampleInv.id = some sampleInv ∧
     (generateProfitsForActiveInvestments false sampleEnvs ⟨5, 0, 0⟩ 600
        none samplePairDB).batchErrorLogged = false ∧
     ((generateProfitsForActiveInvestments true sampleEnvs ⟨5, 0, 0⟩ 600
        none samplePairDB).db = samplePairDB ∧
      (generateProfitsForActiveInvestments true sampleEnvs ⟨5, 0, 0⟩ 600
        none samplePairDB).batchErrorLogged = true ∧
      (generateProfitsForActiveInvestments true sampleEnvs ⟨5, 0, 0⟩ 600
        none samplePairDB).recordErrors = [])) := by
  have h := cycle_isolates_record_failures sampleEnvs ⟨5, 0, 0⟩ 600 none
    samplePairDB sampleInv sampleInvB samplePlan (by decide) (by decide) rfl
    (by decide) (by decide) (by decide) (by decide) (by decide) (by decide)
    rfl rfl
  exact ⟨by decide, by decide, rfl, by decide, rfl, rfl,
    by norm_num [sampleInvB, samplePlan],
    h.1, h.2.1, h.2.2.1, h.2.2.2.1, h.2.2.2.2 sampleEnvs⟩
